import Mathlib

/-!
Shallow embedding of the access-controlled query and aggregation layer of the
sentiment-backend repository (post / comment / sentiment repositories, the
access-grant store, and the analytics repository), together with proofs about
the claims of its specification.

Conventions of the embedding:
* the relational store is a `Db` value: one list per table, rows as structures
  whose fields mirror the SQL columns (`NULL`-able columns are `Option`);
* ids are `String` (opaque tokens in the source), timestamps are `Nat`
  (seconds since epoch; `NOW()` becomes an explicit `now` argument);
* SQL numerics (`confidence`, `polarity`) are `Rat`;
* `ORDER BY` is modelled by `List.insertionSort` on the resolved key
  (SQL promises a sorted permutation; tie order is unspecified either way),
  `LIMIT n OFFSET m` by `(·.drop m).take n`;
* TypeScript optional parameters are `Option` fields whose destructuring
  defaults are applied with `getD`; TS truthiness tests on string filters
  (`if (page_id)`) skip both absent and empty-string values;
* queries are pure functions of the `Db`; write paths return the updated `Db`,
  and a thrown `Error` is an `Except.error` carrying the message, paired with
  the store state at the moment of the throw.
-/

namespace SentimentBackend

/-- A scraped social identity (`users` table). -/
structure User where
  id : String
  fb_profile_id : Option String
  full_name : Option String
  inserted_at : Nat
deriving Repr, DecidableEq

/-- A scraped page (`pages` table). -/
structure Page where
  id : String
  page_url : Option String
  page_name : Option String
  inserted_at : Nat
deriving Repr, DecidableEq

/-- A scraped post (`posts` table). -/
structure Post where
  id : String
  page_id : Option String
  full_url : Option String
  content : Option String
  posted_at : Option Nat
  inserted_at : Nat
deriving Repr, DecidableEq

/-- A comment on a post (`comments` table). -/
structure Comment where
  id : String
  full_url : Option String
  post_id : Option String
  user_id : Option String
  content : Option String
  inserted_at : Nat
deriving Repr, DecidableEq

/-- A sentiment row (`sentiments` table); targets a post (`comment_id` null)
or a comment (`comment_id` set).  The probability map is presentation-only and
not consulted by any query modelled here, so it is omitted. -/
structure Sentiment where
  id : String
  post_id : Option String
  comment_id : Option String
  sentiment : Option String
  sentiment_category : Option String
  confidence : Option Rat
  polarity : Option Rat
  inserted_at : Nat
deriving Repr, DecidableEq

/-- A reaction row (`reactions` table). -/
structure Reaction where
  id : String
  user_id : Option String
  post_id : Option String
  comment_id : Option String
  reaction_type : Option String
  inserted_at : Nat
deriving Repr, DecidableEq

/-- An access grant (`user_post_access` table), composite-unique on
`(auth_user_id, post_id)`. -/
structure AccessGrant where
  auth_user_id : String
  post_id : String
  granted_at : Nat
  granted_by : String
deriving Repr, DecidableEq

/-- The relational store.  `authUsers` keeps only the ids of `auth_users`
rows: the access paths consult nothing else about them. -/
structure Db where
  pages : List Page := []
  posts : List Post := []
  comments : List Comment := []
  sentiments : List Sentiment := []
  reactions : List Reaction := []
  grants : List AccessGrant := []
  authUsers : List String := []
deriving Repr, DecidableEq

/-- TS truthiness of an optional string option: `if (v)` runs the filter only
when the option is present and not the empty string. -/
def strFilter (ov : Option String) (test : String → Bool) : Bool :=
  match ov with
  | some v => if v != "" then test v else true
  | none => true

/-- Comparison on a nullable column; SQL sorts `NULL` above every value
(`NULLS LAST` ascending, `NULLS FIRST` descending, the Postgres defaults). -/
def cmpOption {α : Type} (cmp : α → α → Ordering) : Option α → Option α → Ordering
  | none, none => Ordering.eq
  | none, some _ => Ordering.gt
  | some _, none => Ordering.lt
  | some x, some y => cmp x y

/-- Ordering on `Rat` (SQL numeric comparison). -/
def cmpRat (x y : Rat) : Ordering :=
  if x < y then Ordering.lt else if x = y then Ordering.eq else Ordering.gt

/-- Turn a three-way comparison into the `le` fed to the sort, honouring the
requested direction (`ASC` iff the string equals `"ASC"`, else `DESC`). -/
def dirLe (direction : String) (c : Ordering) : Bool :=
  if direction == "ASC" then c != Ordering.gt else c != Ordering.lt

/-- Sort a list of rows by a `Nat` key, descending (`ORDER BY key DESC`). -/
def sortByKeyDesc {α : Type} (key : α → Nat) (l : List α) : List α :=
  List.insertionSort (fun a b => key b ≤ key a) l

/-- `hay` starts with `pat`. -/
def listStartsWith : List Char → List Char → Bool
  | _, [] => true
  | [], _ :: _ => false
  | h :: hs, p :: ps => h == p && listStartsWith hs ps

/-- `pat` occurs contiguously inside `hay`. -/
def listContainsSub (hay pat : List Char) : Bool :=
  listStartsWith hay pat ||
    match hay with
    | [] => false
    | _ :: t => listContainsSub t pat

/-- Lowercasing (SQL `LOWER`, JS `toLowerCase`), character by character. -/
def strToLower (s : String) : String :=
  String.mk (s.data.map Char.toLower)

/-- SQL `content ILIKE '%pat%'`: case-insensitive substring test. -/
def strContainsCI (content pat : String) : Bool :=
  listContainsSub (strToLower content).data (strToLower pat).data

/-! ## PostRepository (src/repositories/post.repository.ts) -/

/-- `PostQueryOptions` (interfaces/query-options.ts): every field optional in
TS; `none` stands for "not supplied". -/
structure PostQueryOptions where
  limit : Option Nat := none
  offset : Option Nat := none
  orderBy : Option String := none
  orderDirection : Option String := none
  page_id : Option String := none
  page_url : Option String := none
  page_name : Option String := none
  full_url : Option String := none
  includeComments : Bool := false
  includeSentiments : Bool := false
  includeReactions : Bool := false
  includePage : Option Bool := none
  sentiment : Option String := none
  search : Option String := none
deriving Repr, DecidableEq

/-- The `LEFT JOIN pages pg ON p.page_id = pg.id` companion row of a post. -/
def pageOf (db : Db) (p : Post) : Option Page :=
  match p.page_id with
  | some pid => db.pages.find? (fun pg => pg.id == pid)
  | none => none

/-- The correlated subquery of the `sentiment` filter: the post's latest
post-level sentiment row (`ORDER BY s.inserted_at DESC LIMIT 1`). -/
def latestPostLevelSentiment (db : Db) (postId : String) : Option Sentiment :=
  (sortByKeyDesc Sentiment.inserted_at
    (db.sentiments.filter (fun s => s.post_id == some postId && s.comment_id == none))).head?

/-- The `EXISTS (...)` body of the `sentiment` filter: the latest post-level
sentiment's fine category or coarse label equals the filter value
case-insensitively (`LOWER(..) = LOWER($n)`); `NULL` columns never match. -/
def sentimentFilterMatches (db : Db) (postId v : String) : Bool :=
  match latestPostLevelSentiment db postId with
  | none => false
  | some latest =>
    (match latest.sentiment_category with
     | some c => strToLower c == strToLower v
     | none => false)
    || (match latest.sentiment with
        | some sv => strToLower sv == strToLower v
        | none => false)

/-- The conjunction of the dynamically ANDed `WHERE` clauses of
`PostRepository.findAllWithAccess`; equality with a `NULL` column is false. -/
def postWhereMatches (db : Db) (opts : PostQueryOptions) (p : Post) : Bool :=
  strFilter opts.page_id (fun v => p.page_id == some v)
  && strFilter opts.page_url (fun v =>
      match pageOf db p with
      | some pg => pg.page_url == some v
      | none => false)
  && strFilter opts.page_name (fun v =>
      match pageOf db p with
      | some pg => pg.page_name == some v
      | none => false)
  && strFilter opts.full_url (fun v => p.full_url == some v)
  && strFilter opts.sentiment (fun v => sentimentFilterMatches db p.id v)
  && strFilter opts.search (fun v =>
      match p.content with
      | some c => strContainsCI c v
      | none => false)

/-- Correlated subquery `COALESCE((SELECT COUNT(*) FROM comments WHERE
post_id = p.id), 0)`. -/
def commentCountOf (db : Db) (postId : String) : Nat :=
  (db.comments.filter (fun c => c.post_id == some postId)).length

/-- Correlated subquery counting the post's reactions. -/
def reactionCountOf (db : Db) (postId : String) : Nat :=
  (db.reactions.filter (fun r => r.post_id == some postId)).length

/-- A `PostWithDetails` response row.  `none` on `reaction_count` /
`engagement_score` mirrors `row.reaction_count === undefined` in the legacy
variant; the three attachment lists are present only when requested. -/
structure PostWithDetails where
  post : Post
  comment_count : Nat
  reaction_count : Option Nat := none
  engagement_score : Option Nat := none
  page : Option Page := none
  comments : Option (List Comment) := none
  sentiments : Option (List Sentiment) := none
  reactions : Option (List Reaction) := none
deriving Repr, DecidableEq

/-- `mapPostRow` for the access-controlled list query: comment / reaction /
engagement counts are always selected, the page columns only under
`includePage` (default true). -/
def mapPostRowAccess (db : Db) (opts : PostQueryOptions) (p : Post) : PostWithDetails :=
  let c := commentCountOf db p.id
  let r := reactionCountOf db p.id
  { post := p
    comment_count := c
    reaction_count := some r
    engagement_score := some (c + r)
    page := if opts.includePage.getD true then pageOf db p else none }

/-- The `ORDER BY` key of `findAllWithAccess(Post)`, resolved through the
source's `switch` (unlisted values fall back to `p.inserted_at`). -/
def postRowCmp (orderBy : String) (a b : PostWithDetails) : Ordering :=
  match orderBy with
  | "posted_at" => cmpOption compare a.post.posted_at b.post.posted_at
  | "comment_count" => compare a.comment_count b.comment_count
  | "reaction_count" => cmpOption compare a.reaction_count b.reaction_count
  | "engagement_score" => cmpOption compare a.engagement_score b.engagement_score
  | "content" => cmpOption compare a.post.content b.post.content
  | _ => compare a.post.inserted_at b.post.inserted_at

/-- Attachment phase of `findAllWithAccess(Post)`: the batched
`WHERE ... = ANY($1)` relation queries, grouped in memory by foreign key and
attached per row (the group of an id is precisely the per-id filter of the
batched query).  Sentiments are restricted to post-level rows here. -/
def enrichPostAccess (db : Db) (opts : PostQueryOptions) (row : PostWithDetails) :
    PostWithDetails :=
  let row := if opts.includeComments then
      { row with comments := some (sortByKeyDesc Comment.inserted_at
          (db.comments.filter (fun c => c.post_id == some row.post.id))) }
    else row
  let row := if opts.includeSentiments then
      { row with sentiments := some (sortByKeyDesc Sentiment.inserted_at
          (db.sentiments.filter (fun s =>
            s.post_id == some row.post.id && s.comment_id == none))) }
    else row
  if opts.includeReactions then
    { row with reactions := some (sortByKeyDesc Reaction.inserted_at
        (db.reactions.filter (fun r => r.post_id == some row.post.id))) }
  else row

/-- `PostRepository.findAllWithAccess`: WHERE filters, the access `INNER JOIN
user_post_access` for non-admins (admins get no join), order, paginate,
attach. -/
def postFindAllWithAccess (db : Db) (userId role : String) (opts : PostQueryOptions) :
    List PostWithDetails :=
  let filtered := db.posts.filter (fun p => postWhereMatches db opts p)
  let accessed :=
    if role == "admin" then filtered
    else filtered.filter (fun p =>
      db.grants.any (fun g => g.post_id == p.id && g.auth_user_id == userId))
  let rows := accessed.map (fun p => mapPostRowAccess db opts p)
  let sorted := List.insertionSort
    (fun a b => dirLe (opts.orderDirection.getD "DESC")
      (postRowCmp (opts.orderBy.getD "inserted_at") a b) = true) rows
  let paged := (sorted.drop (opts.offset.getD 0)).take (opts.limit.getD 100)
  paged.map (fun r => enrichPostAccess db opts r)

/-- `PostRepository.hasAccess`: admins short-circuit to true, otherwise a
`user_post_access` row for `(userId, postId)` must exist. -/
def postHasAccess (db : Db) (postId userId role : String) : Bool :=
  role == "admin"
  || db.grants.any (fun g => g.auth_user_id == userId && g.post_id == postId)

/-- Attachment phase of `findById(Post)`: note that here the sentiments query
has no `comment_id IS NULL` restriction. -/
def enrichPostById (db : Db) (opts : PostQueryOptions) (row : PostWithDetails) :
    PostWithDetails :=
  let row := if opts.includeComments then
      { row with comments := some (sortByKeyDesc Comment.inserted_at
          (db.comments.filter (fun c => c.post_id == some row.post.id))) }
    else row
  let row := if opts.includeSentiments then
      { row with sentiments := some (sortByKeyDesc Sentiment.inserted_at
          (db.sentiments.filter (fun s => s.post_id == some row.post.id))) }
    else row
  if opts.includeReactions then
    { row with reactions := some (sortByKeyDesc Reaction.inserted_at
        (db.reactions.filter (fun r => r.post_id == some row.post.id))) }
  else row

/-- `PostRepository.findById` (no access control): `WHERE p.id = $1`;
`reaction_count` is selected only under `includeReactions` and
`engagement_score` not at all. -/
def postFindById (db : Db) (id : String) (opts : PostQueryOptions) :
    Option PostWithDetails :=
  match db.posts.find? (fun p => p.id == id) with
  | none => none
  | some p =>
    some (enrichPostById db opts
      { post := p
        comment_count := commentCountOf db p.id
        reaction_count := if opts.includeReactions then some (reactionCountOf db p.id) else none
        page := if opts.includePage.getD true then pageOf db p else none })

/-- `PostRepository.findByIdWithAccess`: access pre-check, then `findById`;
denial is `none`, never an error. -/
def postFindByIdWithAccess (db : Db) (id userId role : String)
    (opts : PostQueryOptions) : Option PostWithDetails :=
  if postHasAccess db id userId role then postFindById db id opts else none

/-! ## SentimentRepository (src/repositories/sentiment.repository.ts) -/

/-- `SentimentQueryOptions` (interfaces/query-options.ts). -/
structure SentimentQueryOptions where
  limit : Option Nat := none
  offset : Option Nat := none
  orderBy : Option String := none
  orderDirection : Option String := none
  post_id : Option String := none
  comment_id : Option String := none
  sentiment_category : Option String := none
  includePost : Bool := false
  includeComment : Bool := false
  minConfidence : Option Rat := none
  maxConfidence : Option Rat := none
  onlyPostSentiments : Bool := false
  onlyCommentSentiments : Bool := false
deriving Repr, DecidableEq

/-- `LEFT JOIN comments c_access ON s.comment_id = c_access.id`. -/
def commentOf (db : Db) (s : Sentiment) : Option Comment :=
  match s.comment_id with
  | some cid => db.comments.find? (fun c => c.id == cid)
  | none => none

/-- The grant rows matched by the access join of
`SentimentRepository.findAllWithAccess` for one sentiment row.  The SQL `ON`
condition is written
`(s.post_id IS NOT NULL AND upa.post_id = s.post_id) OR
 (s.comment_id IS NOT NULL AND upa.post_id = c_access.post_id)
 AND upa.auth_user_id = $n`;
`AND` binds tighter than `OR`, so the `auth_user_id` condition applies only to
the comment branch — the post branch joins to a grant row of ANY user. -/
def sentimentAccessRows (db : Db) (userId : String) (s : Sentiment) :
    List AccessGrant :=
  let c := commentOf db s
  db.grants.filter (fun upa =>
    (match s.post_id with
     | some pid => upa.post_id == pid
     | none => false)
    || ((match s.comment_id with
         | some _ =>
           (match c with
            | some cc =>
              (match cc.post_id with
               | some cp => upa.post_id == cp
               | none => false)
            | none => false)
         | none => false)
        && upa.auth_user_id == userId))

/-- The conjunction of the dynamically ANDed `WHERE` clauses of the sentiment
list queries.  A comparison against a `NULL` `confidence` is SQL-`NULL`,
i.e. the row is dropped. -/
def sentimentWhereMatches (opts : SentimentQueryOptions) (s : Sentiment) : Bool :=
  strFilter opts.post_id (fun v => s.post_id == some v)
  && strFilter opts.comment_id (fun v => s.comment_id == some v)
  && strFilter opts.sentiment_category (fun v => s.sentiment_category == some v)
  && (match opts.minConfidence with
      | some m =>
        (match s.confidence with
         | some c => m ≤ c
         | none => false)
      | none => true)
  && (match opts.maxConfidence with
      | some m =>
        (match s.confidence with
         | some c => c ≤ m
         | none => false)
      | none => true)
  && (!opts.onlyPostSentiments || s.comment_id == none)
  && (!opts.onlyCommentSentiments || s.comment_id != none)

/-- The `ORDER BY s.<orderBy>` key of the sentiment list queries.  The source
interpolates the option verbatim; this model resolves the columns of the
`sentiments` table, and a string that is no column (a database error in the
source, exercised by no claim) degenerates to the `inserted_at` key. -/
def sentimentOrderCmp (orderBy : String) (a b : Sentiment) : Ordering :=
  match orderBy with
  | "id" => compare a.id b.id
  | "post_id" => cmpOption compare a.post_id b.post_id
  | "comment_id" => cmpOption compare a.comment_id b.comment_id
  | "sentiment" => cmpOption compare a.sentiment b.sentiment
  | "sentiment_category" => cmpOption compare a.sentiment_category b.sentiment_category
  | "confidence" => cmpOption cmpRat a.confidence b.confidence
  | "polarity" => cmpOption cmpRat a.polarity b.polarity
  | _ => compare a.inserted_at b.inserted_at

/-- A `SentimentWithDetails` response row. -/
structure SentimentWithDetails where
  s : Sentiment
  post : Option Post := none
  comment : Option Comment := none
deriving Repr, DecidableEq

/-- Row mapping of the sentiment queries: the post / comment sub-objects are
attached when requested and resolvable (`row['post.id']` truthy). -/
def mkSentimentDetails (db : Db) (opts : SentimentQueryOptions) (s : Sentiment) :
    SentimentWithDetails :=
  { s := s
    post := if opts.includePost then
        match s.post_id with
        | some pid => db.posts.find? (fun p => p.id == pid)
        | none => none
      else none
    comment := if opts.includeComment then commentOf db s else none }

/-- `SentimentRepository.findAllWithAccess`.  For non-admins the access
`INNER JOIN` multiplies a sentiment row once per matched grant row
(`sentimentAccessRows`); admins get no join. -/
def sentimentFindAllWithAccess (db : Db) (userId role : String)
    (opts : SentimentQueryOptions) : List SentimentWithDetails :=
  let joined :=
    if role == "admin" then db.sentiments
    else db.sentiments.flatMap (fun s => (sentimentAccessRows db userId s).map (fun _ => s))
  let filtered := joined.filter (fun s => sentimentWhereMatches opts s)
  let sorted := List.insertionSort
    (fun a b => dirLe (opts.orderDirection.getD "DESC")
      (sentimentOrderCmp (opts.orderBy.getD "inserted_at") a b) = true) filtered
  let paged := (sorted.drop (opts.offset.getD 0)).take (opts.limit.getD 100)
  paged.map (fun s => mkSentimentDetails db opts s)

/-- `SentimentRepository.hasAccess` (the by-id check): admins short-circuit;
otherwise the sentiment row must join through its post, or its comment's
post, to a grant row of this user — here the `auth_user_id` condition sits in
the `WHERE` clause and so applies to both branches. -/
def sentimentHasAccess (db : Db) (sentimentId userId role : String) : Bool :=
  role == "admin"
  || db.sentiments.any (fun s =>
      s.id == sentimentId
      && db.grants.any (fun upa =>
        ((match s.post_id with
          | some pid => upa.post_id == pid
          | none => false)
         || (match s.comment_id with
             | some _ =>
               (match commentOf db s with
                | some cc =>
                  (match cc.post_id with
                   | some cp => upa.post_id == cp
                   | none => false)
                | none => false)
             | none => false))
        && upa.auth_user_id == userId))

/-- `SentimentRepository.findById` (no access control): `WHERE s.id = $1`. -/
def sentimentFindById (db : Db) (id : String) (opts : SentimentQueryOptions) :
    Option SentimentWithDetails :=
  match db.sentiments.find? (fun s => s.id == id) with
  | none => none
  | some s => some (mkSentimentDetails db opts s)

/-- `SentimentRepository.findByIdWithAccess`: access pre-check, then
`findById`; denial is `none`, never an error. -/
def sentimentFindByIdWithAccess (db : Db) (id userId role : String)
    (opts : SentimentQueryOptions) : Option SentimentWithDetails :=
  if sentimentHasAccess db id userId role then sentimentFindById db id opts else none

/-! ## AccessRepository (src/repositories/access.repository.ts) and
AccessService (src/services/access.service.ts) -/

/-- `INSERT INTO user_post_access ... ON CONFLICT (auth_user_id, post_id)
DO UPDATE SET granted_at = now(), granted_by = $3` on the grants table. -/
def grantUpsert (grants : List AccessGrant) (authUserId postId grantedBy : String)
    (now : Nat) : List AccessGrant :=
  if grants.any (fun g => g.auth_user_id == authUserId && g.post_id == postId) then
    grants.map (fun g =>
      if g.auth_user_id == authUserId && g.post_id == postId then
        { g with granted_at := now, granted_by := grantedBy }
      else g)
  else
    grants ++ [{ auth_user_id := authUserId, post_id := postId,
                 granted_at := now, granted_by := grantedBy }]

/-- `AccessRepository.grantAccess`: the upsert plus its `RETURNING *` row. -/
def accessRepoGrantAccess (db : Db) (authUserId postId grantedBy : String)
    (now : Nat) : Db × AccessGrant :=
  ({ db with grants := grantUpsert db.grants authUserId postId grantedBy now },
   { auth_user_id := authUserId, post_id := postId,
     granted_at := now, granted_by := grantedBy })

/-- `AuthRepository.findById` row existence: `SELECT * FROM auth_users WHERE
id = $1` is non-empty. -/
def authUserExists (db : Db) (id : String) : Bool :=
  db.authUsers.any (fun u => u == id)

/-- `AccessService.grantAccess`: verify the auth user exists (else throw
`'User not found'`), verify the post exists via `postRepository.findById`
(else throw `'Post not found'`), then upsert.  The returned `Db` is the store
state when the call finishes or throws. -/
def serviceGrantAccess (db : Db) (authUserId postId grantedBy : String)
    (now : Nat) : Db × Except String AccessGrant :=
  if !authUserExists db authUserId then (db, Except.error "User not found")
  else if (postFindById db postId {}).isNone then (db, Except.error "Post not found")
  else
    let (db, g) := accessRepoGrantAccess db authUserId postId grantedBy now
    (db, Except.ok g)

/-- `AccessService.grantBulkAccessToPost`: a plain loop of `grantAccess`
calls, one per user id; the first throw propagates, with every earlier grant
already committed. -/
def grantBulkAccessToPost (db : Db) (userIds : List String) (postId grantedBy : String)
    (now : Nat) : Db × Except String (List AccessGrant) :=
  match userIds with
  | [] => (db, Except.ok [])
  | uid :: rest =>
    match serviceGrantAccess db uid postId grantedBy now with
    | (db, Except.error e) => (db, Except.error e)
    | (db, Except.ok g) =>
      match grantBulkAccessToPost db rest postId grantedBy now with
      | (db, Except.error e) => (db, Except.error e)
      | (db, Except.ok gs) => (db, Except.ok (g :: gs))

/-- `AccessService.grantBulkAccessToUser`: a plain loop of `grantAccess`
calls, one per post id; the first throw propagates, with every earlier grant
already committed. -/
def grantBulkAccessToUser (db : Db) (authUserId : String) (postIds : List String)
    (grantedBy : String) (now : Nat) : Db × Except String (List AccessGrant) :=
  match postIds with
  | [] => (db, Except.ok [])
  | pid :: rest =>
    match serviceGrantAccess db authUserId pid grantedBy now with
    | (db, Except.error e) => (db, Except.error e)
    | (db, Except.ok g) =>
      match grantBulkAccessToUser db authUserId rest grantedBy now with
      | (db, Except.error e) => (db, Except.error e)
      | (db, Except.ok gs) => (db, Except.ok (g :: gs))

/-! ## ORDER BY composition of the three entity readers (query text level) -/

/-- The Post reader's `orderExpression` switch: allow-listed names resolve to
fixed expressions, anything else falls back to `p.inserted_at`. -/
def postOrderExpression (orderBy : String) : String :=
  match orderBy with
  | "posted_at" => "p.posted_at"
  | "comment_count" => "comment_count"
  | "reaction_count" => "reaction_count"
  | "engagement_score" => "engagement_score"
  | "content" => "p.content"
  | _ => "p.inserted_at"

/-- The Post reader's direction guard:
`orderDirection === 'ASC' ? 'ASC' : 'DESC'`. -/
def sanitizedDirection (d : String) : String :=
  if d == "ASC" then "ASC" else "DESC"

/-- The `ORDER BY` fragment of `PostRepository.findAllWithAccess`:
`ORDER BY ${orderExpression} ${direction}`. -/
def postOrderByFragment (orderBy d : String) : String :=
  "ORDER BY " ++ postOrderExpression orderBy ++ " " ++ sanitizedDirection d

/-- The `ORDER BY` fragment of `CommentRepository.findAllWithAccess`:
`ORDER BY c.${orderBy} ${orderDirection}` — both options interpolated
verbatim. -/
def commentOrderByFragment (orderBy d : String) : String :=
  "ORDER BY c." ++ orderBy ++ " " ++ d

/-- The `ORDER BY` fragment of `SentimentRepository.findAllWithAccess`:
`ORDER BY s.${orderBy} ${orderDirection}` — both options interpolated
verbatim. -/
def sentimentOrderByFragment (orderBy d : String) : String :=
  "ORDER BY s." ++ orderBy ++ " " ++ d

/-! ## AnalyticsRepository (src/repositories/analytics.repository.ts) -/

/-- `AnalyticsRepository.hasPostAccess` (private): the same check as
`PostRepository.hasAccess`, re-implemented in the analytics class. -/
def analyticsHasPostAccess (db : Db) (postId userId role : String) : Bool :=
  role == "admin"
  || db.grants.any (fun g => g.auth_user_id == userId && g.post_id == postId)

/-- `AnalyticsRepository.getPostSentiments`: denial recovers to `[]`;
otherwise the post-level (`comment_id IS NULL`) sentiment rows of the post,
newest first. -/
def getPostSentiments (db : Db) (postId userId role : String) : List Sentiment :=
  if !analyticsHasPostAccess db postId userId role then []
  else
    sortByKeyDesc Sentiment.inserted_at
      (db.sentiments.filter (fun s => s.post_id == some postId && s.comment_id == none))

/-- `AnalyticsRepository.getCommentSentimentsByPostId`: denial recovers to
`[]`; otherwise sentiments `INNER JOIN`ed to the comments of the post, newest
first.  The joined pair keeps the comment of each row (the user columns of the
further `LEFT JOIN users` are presentation-only and omitted). -/
def getCommentSentimentsByPostId (db : Db) (postId userId role : String) :
    List (Sentiment × Comment) :=
  if !analyticsHasPostAccess db postId userId role then []
  else
    sortByKeyDesc (fun sc : Sentiment × Comment => sc.1.inserted_at)
      (db.sentiments.flatMap (fun s =>
        (db.comments.filter (fun c =>
          s.comment_id == some c.id && c.post_id == some postId)).map (fun c => (s, c))))

/-- One `by_category` row of the post sentiment summary. -/
structure CategorySummary where
  sentiment_category : Option String
  count : Nat
  avg_confidence : Option Rat
  avg_polarity : Option Rat
deriving Repr, DecidableEq

/-- The `total` row of the post sentiment summary. -/
structure TotalSummary where
  total_sentiments : Nat
  overall_avg_confidence : Option Rat
  overall_avg_polarity : Option Rat
deriving Repr, DecidableEq

/-- The post sentiment summary response. -/
structure PostSentimentSummary where
  post_id : String
  total : TotalSummary
  by_category : List CategorySummary
deriving Repr, DecidableEq

/-- SQL `AVG` over a nullable column: `NULL` inputs are ignored, and the
average of zero values is `NULL`. -/
def avgOpt (xs : List (Option Rat)) : Option Rat :=
  let vs := xs.filterMap id
  match vs with
  | [] => none
  | _ => some (vs.sum / (vs.length : Rat))

/-- `AnalyticsRepository.getPostSentimentSummary`: denial recovers to `null`;
otherwise the rows with `post_id = $1` (and no `comment_id` condition) are
grouped by `sentiment_category` (`NULL` categories form their own group) into
count / avg confidence / avg polarity, ordered by count descending, plus an
overall total row over the same `WHERE post_id = $1` rows. -/
def getPostSentimentSummary (db : Db) (postId userId role : String) :
    Option PostSentimentSummary :=
  if !analyticsHasPostAccess db postId userId role then none
  else
    let rows := db.sentiments.filter (fun s => s.post_id == some postId)
    let keys := (rows.map (fun s => s.sentiment_category)).dedup
    let cats := keys.map (fun k =>
      let group := rows.filter (fun s => s.sentiment_category == k)
      { sentiment_category := k
        count := group.length
        avg_confidence := avgOpt (group.map (fun s => s.confidence))
        avg_polarity := avgOpt (group.map (fun s => s.polarity)) : CategorySummary })
    some { post_id := postId
           total := { total_sentiments := rows.length
                      overall_avg_confidence := avgOpt (rows.map (fun s => s.confidence))
                      overall_avg_polarity := avgOpt (rows.map (fun s => s.polarity)) }
           by_category := List.insertionSort
             (fun a b : CategorySummary => b.count ≤ a.count) cats }

/-- One entry of the dashboard's 24-hour sentiment trend. -/
structure TrendEntry where
  date : Nat
  positive : Nat
  negative : Nat
  neutral : Nat
deriving Repr, DecidableEq

/-- `DATE_TRUNC('hour', t)`. -/
def truncHour (t : Nat) : Nat := t / 3600 * 3600

/-- The rows feeding the trend query: post-level sentiments with a category,
inserted within the trailing 24 hours, access-joined through `posts` and
`user_post_access` for non-admins. -/
def trendSourceRows (db : Db) (userId role : String) (now : Nat) : List Sentiment :=
  db.sentiments.filter (fun s =>
    now - 86400 ≤ s.inserted_at
    && s.post_id.isSome && s.comment_id == none && s.sentiment_category.isSome
    && (role == "admin"
        || db.posts.any (fun p => s.post_id == some p.id
            && db.grants.any (fun g => g.post_id == p.id && g.auth_user_id == userId))))

/-- The trend query's `GROUP BY DATE_TRUNC('hour', inserted_at),
LOWER(sentiment_category)` with its counts, ordered by date descending. -/
def trendGroups (db : Db) (userId role : String) (now : Nat) :
    List (Nat × String × Nat) :=
  let rows := trendSourceRows db userId role now
  let keys := (rows.map (fun s =>
    (truncHour s.inserted_at, strToLower (s.sentiment_category.getD "")))).dedup
  sortByKeyDesc (fun g : Nat × String × Nat => g.1)
    (keys.map (fun k =>
      (k.1, k.2, (rows.filter (fun s =>
        truncHour s.inserted_at == k.1
        && strToLower (s.sentiment_category.getD "") == k.2)).length)))

/-- The pre-seeded buckets: for `i = 23 .. 0` the source pushes
`new Date()` minus `i` hours — i.e. `now - i·3600` at FULL precision, without
hour truncation — with all-zero counts, oldest first. -/
def seedTrend (now : Nat) : List TrendEntry :=
  (List.range 24).map (fun j =>
    { date := now - (23 - j) * 3600, positive := 0, negative := 0, neutral := 0 })

/-- The `switch (row.sentiment_category)` overwrite of one bucket. -/
def setTrendCount (t : TrendEntry) (cat : String) (n : Nat) : TrendEntry :=
  if cat == "positive" then { t with positive := n }
  else if cat == "negative" then { t with negative := n }
  else if cat == "neutral" then { t with neutral := n }
  else t

/-- `sentimentTrend.find((t) => t.date === dateStr)` then mutate: overwrite
the first bucket whose date equals the group's date; a group whose date
matches no bucket is dropped. -/
def applyTrendGroup (trend : List TrendEntry) (g : Nat × String × Nat) :
    List TrendEntry :=
  match trend with
  | [] => []
  | t :: rest =>
    if t.date == g.1 then setTrendCount t g.2.1 g.2.2 :: rest
    else t :: applyTrendGroup rest g

/-- The dashboard's `sentimentTrend` array: seed 24 buckets, then fold the
grouped rows into them. -/
def dashboardSentimentTrend (db : Db) (userId role : String) (now : Nat) :
    List TrendEntry :=
  (trendGroups db userId role now).foldl applyTrendGroup (seedTrend now)

/-- Count of accessible post-level sentiments whose lowercased category is
`cat` (the `positivePosts` / `negativePosts` / `neutralPosts` switch). -/
def dashSentimentCount (db : Db) (userId role : String) (cat : String) : Nat :=
  (db.sentiments.filter (fun s =>
    s.post_id.isSome && s.comment_id == none && s.sentiment_category.isSome
    && strToLower (s.sentiment_category.getD "") == cat
    && (role == "admin"
        || db.posts.any (fun p => s.post_id == some p.id
            && db.grants.any (fun g => g.post_id == p.id && g.auth_user_id == userId))))).length

/-- The slice of the dashboard response the claims speak about.  The float
display heuristics (`avgEngagement` and the page / post summary averages) are
floating-point presentation values outside this model. -/
structure DashboardStats where
  totalPosts : Nat
  positivePosts : Nat
  negativePosts : Nat
  neutralPosts : Nat
  sentimentTrend : List TrendEntry
deriving Repr, DecidableEq

/-- `AnalyticsRepository.getDashboardStats` (the modelled slice): admins count
every post, non-admins the distinct granted posts; category counts and the
24-hour trend as above. -/
def getDashboardStats (db : Db) (userId role : String) (now : Nat) : DashboardStats :=
  { totalPosts :=
      if role == "admin" then db.posts.length
      else ((db.posts.filter (fun p =>
        db.grants.any (fun g => g.post_id == p.id && g.auth_user_id == userId))).map
          (fun p => p.id)).dedup.length
    positivePosts := dashSentimentCount db userId role "positive"
    negativePosts := dashSentimentCount db userId role "negative"
    neutralPosts := dashSentimentCount db userId role "neutral"
    sentimentTrend := dashboardSentimentTrend db userId role now }

/-- Number of grant rows of one `(user, post)` pair. -/
def pairCount (grants : List AccessGrant) (u p : String) : Nat :=
  (grants.filter (fun g => g.auth_user_id == u && g.post_id == p)).length

/-- The expected store after upserting one grant per post id of a list, in
order, for one user. -/
def applyUserGrants (db : Db) (u : String) (pids : List String) (b : String)
    (t : Nat) : Db :=
  pids.foldl (fun d pid => (accessRepoGrantAccess d u pid b t).1) db

/-- The expected store after upserting one grant per user id of a list, in
order, on one post. -/
def applyPostGrants (db : Db) (uids : List String) (postId b : String) (t : Nat) : Db :=
  uids.foldl (fun d uid => (accessRepoGrantAccess d uid postId b t).1) db

/-! ## Concrete stores used to instantiate and to refute claims -/

/-- A single post, granted below to various users. -/
def exPost1 : Post :=
  { id := "p1", page_id := none, full_url := none, content := some "hello",
    posted_at := none, inserted_at := 10 }

/-- A post-level sentiment row on `p1`. -/
def exSent1 : Sentiment :=
  { id := "s1", post_id := some "p1", comment_id := none,
    sentiment := some "positive", sentiment_category := some "joy",
    confidence := some ((9 : Rat)/10), polarity := some ((4 : Rat)/5),
    inserted_at := 99000 }

/-- A comment on `p1`. -/
def exComment1 : Comment :=
  { id := "c1", full_url := none, post_id := some "p1", user_id := none,
    content := some "c", inserted_at := 20 }

/-- Store: `p1` granted to `u1`. -/
def exDb1 : Db :=
  { posts := [exPost1],
    grants := [{ auth_user_id := "u1", post_id := "p1", granted_at := 0, granted_by := "adm" }] }

/-- Store: `p1` granted to `u2` only, with one post-level sentiment on it. -/
def exDb2 : Db :=
  { posts := [exPost1], sentiments := [exSent1],
    grants := [{ auth_user_id := "u2", post_id := "p1", granted_at := 0, granted_by := "adm" }] }

/-- Store: auth user `u3` and post `p1` exist, nothing else; no grants. -/
def exDb3 : Db :=
  { posts := [exPost1], authUsers := ["u3"] }

/-- Store: one post-level sentiment with category `positive` at time 99000. -/
def exDb5 : Db :=
  { posts := [exPost1],
    sentiments := [{ exSent1 with sentiment_category := some "positive" }] }

/-- Store: a `positive` comment-level sentiment on `c1`, a comment of `p1`. -/
def exDb7 : Db :=
  { posts := [exPost1], comments := [exComment1],
    sentiments := [{ id := "s2", post_id := none, comment_id := some "c1",
                     sentiment := some "positive", sentiment_category := some "positive",
                     confidence := some ((9 : Rat)/10), polarity := some ((4 : Rat)/5),
                     inserted_at := 30 }] }

/-- Store: exactly one post-level `positive` sentiment on `p1` with confidence
0.9 and polarity 0.8 (end-to-end scenario 2 of the specification). -/
def exDb7b : Db :=
  { posts := [exPost1],
    sentiments := [{ id := "s3", post_id := some "p1", comment_id := none,
                     sentiment := some "positive", sentiment_category := some "positive",
                     confidence := some ((9 : Rat)/10), polarity := some ((4 : Rat)/5),
                     inserted_at := 30 }] }

/-- Store with no post-level sentiment rows at all, for the no-row half of the
sentiment-filter claim. -/
def exDbNoSent : Db :=
  { posts := [exPost1] }

/-! ## Helper lemmas -/

/-- The row mapper keeps the underlying post. -/
lemma mapPostRowAccess_post (db : Db) (opts : PostQueryOptions) (p : Post) :
    (mapPostRowAccess db opts p).post = p := rfl

/-- The attachment phase keeps the underlying post. -/
lemma enrichPostAccess_post (db : Db) (opts : PostQueryOptions) (row : PostWithDetails) :
    (enrichPostAccess db opts row).post = row.post := by
  unfold enrichPostAccess
  split <;> split <;> split <;> rfl

lemma any_pair_of_pairCount_ne_zero {grants : List AccessGrant} {u p : String}
    (h : pairCount grants u p ≠ 0) :
    grants.any (fun g => g.auth_user_id == u && g.post_id == p) = true := by
  rcases List.exists_mem_of_length_pos (Nat.pos_of_ne_zero h) with ⟨g, hg⟩
  rcases List.mem_filter.mp hg with ⟨hg1, hg2⟩
  exact List.any_eq_true.mpr ⟨g, hg1, hg2⟩

lemma length_filter_map_eq {α : Type} (f : α → α) (pred : α → Bool)
    (h : ∀ a, pred (f a) = pred a) (l : List α) :
    ((l.map f).filter pred).length = (l.filter pred).length := by
  induction l with
  | nil => rfl
  | cons a t ih =>
    simp only [List.map_cons, List.filter_cons, h a]
    cases hp : pred a <;> simp [hp, ih]

lemma pairCount_grantUpsert (grants : List AccessGrant) (u p b : String) (t : Nat) :
    pairCount (grantUpsert grants u p b t) u p =
      if pairCount grants u p = 0 then 1 else pairCount grants u p := by
  unfold grantUpsert
  by_cases h : grants.any (fun g => g.auth_user_id == u && g.post_id == p) = true
  · have hne : pairCount grants u p ≠ 0 := by
      rcases List.any_eq_true.mp h with ⟨g, hg, hp⟩
      have hm : g ∈ grants.filter (fun g => g.auth_user_id == u && g.post_id == p) :=
        List.mem_filter.mpr ⟨hg, hp⟩
      intro hzero
      simp only [pairCount, List.length_eq_zero] at hzero
      simp [hzero] at hm
    rw [if_pos h, if_neg hne]
    simp only [pairCount]
    exact length_filter_map_eq _ _ (fun a => by
      by_cases hp : (a.auth_user_id == u && a.post_id == p) = true
      · rw [if_pos hp]
      · rw [if_neg hp]) grants
  · have h' : grants.any (fun g => g.auth_user_id == u && g.post_id == p) = false :=
      Bool.eq_false_iff.mpr h
    have hfil : grants.filter (fun g => g.auth_user_id == u && g.post_id == p) = [] := by
      rw [List.filter_eq_nil_iff]
      intro a ha
      simpa using List.any_eq_false.mp h' a ha
    have hz : pairCount grants u p = 0 := by simp [pairCount, hfil]
    rw [if_neg h, if_pos hz]
    simp [pairCount, List.filter_append, hfil]

lemma grantUpsert_pair_fields {grants : List AccessGrant} {u p : String} (b : String) (t : Nat)
    (h : grants.any (fun g => g.auth_user_id == u && g.post_id == p) = true) :
    ∀ g ∈ grantUpsert grants u p b t, g.auth_user_id = u → g.post_id = p →
      g.granted_at = t ∧ g.granted_by = b := by
  unfold grantUpsert
  rw [if_pos h]
  intro g hg hgu hgp
  rcases List.mem_map.mp hg with ⟨g0, hg0, heq⟩
  by_cases hp : (g0.auth_user_id == u && g0.post_id == p) = true
  · rw [if_pos hp] at heq
    rw [← heq]
    exact ⟨rfl, rfl⟩
  · rw [if_neg hp] at heq
    subst heq
    exact absurd (by simp [hgu, hgp]) hp

/-- Membership in the post list result, for queries whose window covers the
whole store (`offset` 0 and `limit` at least the table size): exactly the
posts passing the WHERE filters and the access condition, mapped to rows. -/
lemma mem_postFindAllWithAccess {db : Db} {userId role : String} {opts : PostQueryOptions}
    (hlim : db.posts.length ≤ opts.limit.getD 100) (hoff : opts.offset.getD 0 = 0)
    {y : PostWithDetails} :
    y ∈ postFindAllWithAccess db userId role opts ↔
      ∃ p ∈ db.posts, postWhereMatches db opts p = true ∧
        (role == "admin" ||
          db.grants.any (fun g => g.post_id == p.id && g.auth_user_id == userId)) = true ∧
        y = enrichPostAccess db opts (mapPostRowAccess db opts p) := by
  have hacc :
      (if role == "admin"
        then db.posts.filter (fun p => postWhereMatches db opts p)
        else (db.posts.filter (fun p => postWhereMatches db opts p)).filter (fun p =>
          db.grants.any (fun g => g.post_id == p.id && g.auth_user_id == userId)))
      = db.posts.filter (fun p => postWhereMatches db opts p
          && (role == "admin" ||
              db.grants.any (fun g => g.post_id == p.id && g.auth_user_id == userId))) := by
    by_cases h : (role == "admin") = true
    · rw [if_pos h]
      simp only [h, Bool.true_or, Bool.and_true]
    · have h' : (role == "admin") = false := Bool.eq_false_iff.mpr h
      rw [if_neg h, List.filter_filter]
      simp only [h', Bool.false_or]
      exact List.filter_congr (fun x _ => Bool.and_comm _ _)
  simp only [postFindAllWithAccess, hacc]
  rw [hoff, List.drop_zero]
  rw [List.take_of_length_le (by
    rw [List.length_insertionSort, List.length_map]
    exact le_trans (List.length_filter_le _ _) hlim)]
  rw [List.mem_map]
  constructor
  · rintro ⟨r, hr, rfl⟩
    rw [List.mem_insertionSort] at hr
    rcases List.mem_map.mp hr with ⟨p, hp, rfl⟩
    rcases List.mem_filter.mp hp with ⟨hp1, hp2⟩
    rw [Bool.and_eq_true] at hp2
    exact ⟨p, hp1, hp2.1, hp2.2, rfl⟩
  · rintro ⟨p, hp, hw, ha, rfl⟩
    refine ⟨mapPostRowAccess db opts p, ?_, rfl⟩
    rw [List.mem_insertionSort]
    exact List.mem_map_of_mem _
      (List.mem_filter.mpr ⟨hp, by rw [Bool.and_eq_true]; exact ⟨hw, ha⟩⟩)

/-- With no filter option supplied, every post passes the WHERE clause. -/
lemma postWhereMatches_true_of_none {db : Db} {opts : PostQueryOptions} {p : Post}
    (h1 : opts.page_id = none) (h2 : opts.page_url = none) (h3 : opts.page_name = none)
    (h4 : opts.full_url = none) (h5 : opts.sentiment = none) (h6 : opts.search = none) :
    postWhereMatches db opts p = true := by
  simp [postWhereMatches, strFilter, h1, h2, h3, h4, h5, h6]

/-- With only the `sentiment` filter supplied, the WHERE clause is exactly the
latest-post-level-sentiment match. -/
lemma postWhereMatches_sentiment_only {db : Db} {opts : PostQueryOptions} {p : Post}
    {v : String}
    (h1 : opts.page_id = none) (h2 : opts.page_url = none) (h3 : opts.page_name = none)
    (h4 : opts.full_url = none) (h5 : opts.sentiment = some v) (h6 : opts.search = none)
    (hv : v ≠ "") :
    postWhereMatches db opts p = sentimentFilterMatches db p.id v := by
  simp [postWhereMatches, strFilter, h1, h2, h3, h4, h5, h6, hv]

/-- Unfolding of the sentiment-filter body into its specification reading. -/
lemma sentimentFilterMatches_iff (db : Db) (pid v : String) :
    sentimentFilterMatches db pid v = true ↔
      ∃ s, latestPostLevelSentiment db pid = some s ∧
        ((∃ c, s.sentiment_category = some c ∧ strToLower c = strToLower v) ∨
         (∃ sv, s.sentiment = some sv ∧ strToLower sv = strToLower v)) := by
  unfold sentimentFilterMatches
  cases h : latestPostLevelSentiment db pid with
  | none => simp
  | some s =>
    cases hc : s.sentiment_category <;> cases hs : s.sentiment <;>
      simp [hc, hs, beq_iff_eq]

/-! ## Claim theorems -/

/-- Claim C1: with no entity filters and a window covering the whole store,
`PostRepository.findAllWithAccess` for a non-admin user U contains a post P
iff an `AccessGrant (U, P)` row exists, and for an admin caller it contains
every post regardless of grants. -/
theorem c1_post_list_access (db : Db) (userId role : String) (opts : PostQueryOptions)
    (P : Post) (hP : P ∈ db.posts)
    (h1 : opts.page_id = none) (h2 : opts.page_url = none) (h3 : opts.page_name = none)
    (h4 : opts.full_url = none) (h5 : opts.sentiment = none) (h6 : opts.search = none)
    (hlim : db.posts.length ≤ opts.limit.getD 100) (hoff : opts.offset.getD 0 = 0) :
    (role ≠ "admin" →
      ((∃ r ∈ postFindAllWithAccess db userId role opts, r.post.id = P.id) ↔
        ∃ g ∈ db.grants, g.auth_user_id = userId ∧ g.post_id = P.id))
    ∧ (role = "admin" →
        ∃ r ∈ postFindAllWithAccess db userId role opts, r.post.id = P.id) := by
  constructor
  · intro hrole
    have hradm : (role == "admin") = false := beq_eq_false_iff_ne.mpr hrole
    constructor
    · rintro ⟨r, hr, hid⟩
      rw [mem_postFindAllWithAccess hlim hoff] at hr
      rcases hr with ⟨p, _, _, ha, rfl⟩
      rw [hradm, Bool.false_or, List.any_eq_true] at ha
      rcases ha with ⟨g, hg, hgp⟩
      rw [Bool.and_eq_true, beq_iff_eq, beq_iff_eq] at hgp
      rw [enrichPostAccess_post, mapPostRowAccess_post] at hid
      exact ⟨g, hg, hgp.2, hgp.1.trans hid⟩
    · rintro ⟨g, hg, hgu, hgp⟩
      refine ⟨enrichPostAccess db opts (mapPostRowAccess db opts P), ?_, ?_⟩
      · rw [mem_postFindAllWithAccess hlim hoff]
        refine ⟨P, hP, postWhereMatches_true_of_none h1 h2 h3 h4 h5 h6, ?_, rfl⟩
        rw [hradm, Bool.false_or, List.any_eq_true]
        exact ⟨g, hg, by rw [Bool.and_eq_true, beq_iff_eq, beq_iff_eq]; exact ⟨hgp, hgu⟩⟩
      · rw [enrichPostAccess_post, mapPostRowAccess_post]
  · intro hrole
    refine ⟨enrichPostAccess db opts (mapPostRowAccess db opts P), ?_, ?_⟩
    · rw [mem_postFindAllWithAccess hlim hoff]
      refine ⟨P, hP, postWhereMatches_true_of_none h1 h2 h3 h4 h5 h6, ?_, rfl⟩
      rw [hrole]
      simp
    · rw [enrichPostAccess_post, mapPostRowAccess_post]

/-- Witness for C1: the granted pair `(u1, p1)`, an ungranted user `u9`, and
an admin, on the one-post store. -/
theorem c1_post_list_access_witness :
    ((∃ r ∈ postFindAllWithAccess exDb1 "u1" "user" {}, r.post.id = "p1") ↔
      ∃ g ∈ exDb1.grants, g.auth_user_id = "u1" ∧ g.post_id = "p1") ∧
    ((∃ r ∈ postFindAllWithAccess exDb1 "u9" "user" {}, r.post.id = "p1") ↔
      ∃ g ∈ exDb1.grants, g.auth_user_id = "u9" ∧ g.post_id = "p1") ∧
    (∃ r ∈ postFindAllWithAccess exDb1 "u9" "admin" {}, r.post.id = "p1") :=
  ⟨(c1_post_list_access exDb1 "u1" "user" {} exPost1 (by decide) rfl rfl rfl rfl rfl rfl
      (by decide) (by decide)).1 (by decide),
   (c1_post_list_access exDb1 "u9" "user" {} exPost1 (by decide) rfl rfl rfl rfl rfl rfl
      (by decide) (by decide)).1 (by decide),
   (c1_post_list_access exDb1 "u9" "admin" {} exPost1 (by decide) rfl rfl rfl rfl rfl rfl
      (by decide) (by decide)).2 rfl⟩

/-- Claim C8: with the `sentiment` filter as only filter and a window covering
the store, an accessible post P is in the result of
`PostRepository.findAllWithAccess` iff it has a latest post-level sentiment
row whose fine category or coarse label equals the filter value
case-insensitively; a post with zero post-level sentiment rows never
matches. -/
theorem c8_sentiment_filter_latest (db : Db) (userId role : String)
    (opts : PostQueryOptions) (v : String) (P : Post) (hP : P ∈ db.posts)
    (h1 : opts.page_id = none) (h2 : opts.page_url = none) (h3 : opts.page_name = none)
    (h4 : opts.full_url = none) (h5 : opts.sentiment = some v) (h6 : opts.search = none)
    (hv : v ≠ "")
    (hlim : db.posts.length ≤ opts.limit.getD 100) (hoff : opts.offset.getD 0 = 0)
    (hacc : (role == "admin" ||
      db.grants.any (fun g => g.post_id == P.id && g.auth_user_id == userId)) = true) :
    ((∃ r ∈ postFindAllWithAccess db userId role opts, r.post.id = P.id) ↔
      ∃ s, latestPostLevelSentiment db P.id = some s ∧
        ((∃ c, s.sentiment_category = some c ∧ strToLower c = strToLower v) ∨
         (∃ sv, s.sentiment = some sv ∧ strToLower sv = strToLower v)))
    ∧ (db.sentiments.filter (fun s => s.post_id == some P.id && s.comment_id == none) = [] →
        ¬∃ r ∈ postFindAllWithAccess db userId role opts, r.post.id = P.id) := by
  have hmain : (∃ r ∈ postFindAllWithAccess db userId role opts, r.post.id = P.id) ↔
      sentimentFilterMatches db P.id v = true := by
    constructor
    · rintro ⟨r, hr, hid⟩
      rw [mem_postFindAllWithAccess hlim hoff] at hr
      rcases hr with ⟨p, _, hw, _, rfl⟩
      rw [enrichPostAccess_post, mapPostRowAccess_post] at hid
      rw [postWhereMatches_sentiment_only h1 h2 h3 h4 h5 h6 hv, hid] at hw
      exact hw
    · intro hm
      refine ⟨enrichPostAccess db opts (mapPostRowAccess db opts P), ?_, ?_⟩
      · rw [mem_postFindAllWithAccess hlim hoff]
        exact ⟨P, hP,
          by rw [postWhereMatches_sentiment_only h1 h2 h3 h4 h5 h6 hv]; exact hm,
          hacc, rfl⟩
      · rw [enrichPostAccess_post, mapPostRowAccess_post]
  constructor
  · rw [hmain, sentimentFilterMatches_iff]
  · intro hfil hex
    have hlatest : latestPostLevelSentiment db P.id = none := by
      unfold latestPostLevelSentiment
      rw [hfil]
      rfl
    have hm := hmain.mp hex
    unfold sentimentFilterMatches at hm
    rw [hlatest] at hm
    exact Bool.false_ne_true hm

/-- Witness for C8: the filter value `JOY` matches `p1`'s latest post-level
sentiment (category `joy`) case-insensitively in `exDb2` for the granted user
`u2`; and on a store with no sentiment rows the admin sees no match. -/
theorem c8_sentiment_filter_latest_witness :
    ((∃ r ∈ postFindAllWithAccess exDb2 "u2" "user" { sentiment := some "JOY" },
        r.post.id = "p1") ↔
      ∃ s, latestPostLevelSentiment exDb2 "p1" = some s ∧
        ((∃ c, s.sentiment_category = some c ∧ strToLower c = strToLower "JOY") ∨
         (∃ sv, s.sentiment = some sv ∧ strToLower sv = strToLower "JOY"))) ∧
    ¬∃ r ∈ postFindAllWithAccess exDbNoSent "x" "admin" { sentiment := some "positive" },
        r.post.id = "p1" :=
  ⟨(c8_sentiment_filter_latest exDb2 "u2" "user" { sentiment := some "JOY" } "JOY" exPost1
      (by decide) rfl rfl rfl rfl rfl rfl (by decide) (by decide) (by decide) (by decide)).1,
   (c8_sentiment_filter_latest exDbNoSent "x" "admin" { sentiment := some "positive" }
      "positive" exPost1
      (by decide) rfl rfl rfl rfl rfl rfl (by decide) (by decide) (by decide) (by decide)).2
      (by decide)⟩

/-- Claim C9: granting access for the same (user, post) pair twice, with any
`grantedBy` values, leaves exactly one `AccessGrant` row for that pair, whose
`granted_at` and `granted_by` reflect the latest call; the repository upsert
(`ON CONFLICT (auth_user_id, post_id) DO UPDATE`) is total, so re-granting
never errors.  The hypothesis is the store's composite-unique invariant on
`(auth_user_id, post_id)`. -/
theorem c9_grant_upsert_idempotent (grants : List AccessGrant) (u p b1 b2 : String)
    (t1 t2 : Nat) (hinv : pairCount grants u p ≤ 1) :
    pairCount (grantUpsert (grantUpsert grants u p b1 t1) u p b2 t2) u p = 1 ∧
    ∀ g ∈ grantUpsert (grantUpsert grants u p b1 t1) u p b2 t2,
      g.auth_user_id = u → g.post_id = p → g.granted_at = t2 ∧ g.granted_by = b2 := by
  have h1 : pairCount (grantUpsert grants u p b1 t1) u p = 1 := by
    rw [pairCount_grantUpsert]
    rcases Nat.eq_zero_or_pos (pairCount grants u p) with h | h
    · rw [if_pos h]
    · rw [if_neg (by omega)]; omega
  constructor
  · rw [pairCount_grantUpsert, h1]; simp
  · exact grantUpsert_pair_fields b2 t2 (any_pair_of_pairCount_ne_zero (by rw [h1]; omega))

/-- Witness for C9 at the empty store. -/
theorem c9_grant_upsert_idempotent_witness :
    pairCount (grantUpsert (grantUpsert [] "u1" "p1" "a" 1) "u1" "p1" "b" 2) "u1" "p1" = 1 ∧
    ∀ g ∈ grantUpsert (grantUpsert [] "u1" "p1" "a" 1) "u1" "p1" "b" 2,
      g.auth_user_id = "u1" → g.post_id = "p1" → g.granted_at = 2 ∧ g.granted_by = "b" :=
  c9_grant_upsert_idempotent [] "u1" "p1" "a" "b" 1 2 (by decide)

/-- Claim C4: for every entity id, user and role, `findByIdWithAccess` (of the
Post and Sentiment repositories) returns `none` both when no row with that id
exists and when the row exists but the caller lacks access — the two cases
produce the same value, so they are indistinguishable to the caller; the
functions are total, so no error is ever raised. -/
theorem c4_findById_null_on_missing_or_denied (db : Db) (id userId role : String)
    (popts : PostQueryOptions) (sopts : SentimentQueryOptions) :
    ((∀ p ∈ db.posts, p.id ≠ id) → postFindByIdWithAccess db id userId role popts = none)
    ∧ (postHasAccess db id userId role = false →
        postFindByIdWithAccess db id userId role popts = none)
    ∧ ((∀ s ∈ db.sentiments, s.id ≠ id) →
        sentimentFindByIdWithAccess db id userId role sopts = none)
    ∧ (sentimentHasAccess db id userId role = false →
        sentimentFindByIdWithAccess db id userId role sopts = none) := by
  refine ⟨fun h => ?_, fun h => ?_, fun h => ?_, fun h => ?_⟩
  · unfold postFindByIdWithAccess postFindById
    rw [List.find?_eq_none.mpr (fun p hp => by simpa using h p hp)]
    split <;> rfl
  · unfold postFindByIdWithAccess
    simp [h]
  · unfold sentimentFindByIdWithAccess sentimentFindById
    rw [List.find?_eq_none.mpr (fun s hs => by simpa using h s hs)]
    split <;> rfl
  · unfold sentimentFindByIdWithAccess
    simp [h]

/-- Witness for C4: a missing post id, a missing sentiment id, and an existing
but ungranted post, all mapping to `none`. -/
theorem c4_findById_null_on_missing_or_denied_witness :
    postFindByIdWithAccess exDb1 "zzz" "u1" "user" {} = none ∧
    sentimentFindByIdWithAccess exDb1 "zzz" "u1" "user" {} = none ∧
    postFindByIdWithAccess exDb2 "p1" "u1" "user" {} = none :=
  ⟨(c4_findById_null_on_missing_or_denied exDb1 "zzz" "u1" "user" {} {}).1 (by decide),
   (c4_findById_null_on_missing_or_denied exDb1 "zzz" "u1" "user" {} {}).2.2.1 (by decide),
   (c4_findById_null_on_missing_or_denied exDb2 "p1" "u1" "user" {} {}).2.1 (by decide)⟩

/-- Claim C10: for a non-admin caller without a grant on the target post, the
aggregation reads recover the denial into different empty shapes without
raising: `getPostSentiments` and `getCommentSentimentsByPostId` return `[]`
(for `getPostSentiments` indistinguishable from an accessible post with no
post-level sentiment rows, the second conjunct) while
`getPostSentimentSummary` returns `none`; all three are pure reads of the
store. -/
theorem c10_aggregation_denial_shapes (db : Db) (postId userId role : String) :
    (role ≠ "admin" →
      (∀ g ∈ db.grants, ¬(g.auth_user_id = userId ∧ g.post_id = postId)) →
      getPostSentiments db postId userId role = [] ∧
      getCommentSentimentsByPostId db postId userId role = [] ∧
      getPostSentimentSummary db postId userId role = none)
    ∧ (analyticsHasPostAccess db postId userId role = true →
        db.sentiments.filter (fun s => s.post_id == some postId && s.comment_id == none) = [] →
        getPostSentiments db postId userId role = []) := by
  constructor
  · intro hrole hgr
    have hacc : analyticsHasPostAccess db postId userId role = false := by
      unfold analyticsHasPostAccess
      rw [Bool.or_eq_false_iff]
      refine ⟨beq_eq_false_iff_ne.mpr hrole, ?_⟩
      rw [List.any_eq_false]
      intro g hg hcontra
      rw [Bool.and_eq_true, beq_iff_eq, beq_iff_eq] at hcontra
      exact hgr g hg hcontra
    refine ⟨?_, ?_, ?_⟩
    · unfold getPostSentiments; simp [hacc]
    · unfold getCommentSentimentsByPostId; simp [hacc]
    · unfold getPostSentimentSummary; simp [hacc]
  · intro hacc hfil
    unfold getPostSentiments
    rw [hacc, hfil]
    rfl

/-- Witness for C10: `u1` has no grant on `p1` in `exDb2`; and `p1` with no
sentiment rows at all under an admin caller also yields `[]`. -/
theorem c10_aggregation_denial_shapes_witness :
    (getPostSentiments exDb2 "p1" "u1" "user" = [] ∧
     getCommentSentimentsByPostId exDb2 "p1" "u1" "user" = [] ∧
     getPostSentimentSummary exDb2 "p1" "u1" "user" = none) ∧
    getPostSentiments exDb3 "p1" "adm" "admin" = [] :=
  ⟨(c10_aggregation_denial_shapes exDb2 "p1" "u1" "user").1 (by decide) (by decide),
   (c10_aggregation_denial_shapes exDb3 "p1" "adm" "admin").2 (by decide) (by decide)⟩

/-! ## C3: bulk grants -/

lemma serviceGrantAccess_ok (db : Db) (u pid b : String) (t : Nat)
    (hu : authUserExists db u = true)
    (hp : (postFindById db pid {}).isSome = true) :
    serviceGrantAccess db u pid b t =
      ((accessRepoGrantAccess db u pid b t).1,
       Except.ok (accessRepoGrantAccess db u pid b t).2) := by
  unfold serviceGrantAccess
  rw [hu]
  cases hfind : postFindById db pid {} with
  | none => rw [hfind] at hp; simp at hp
  | some x => simp [hfind, accessRepoGrantAccess]

lemma serviceGrantAccess_err_user (db : Db) (u pid b : String) (t : Nat)
    (hu : authUserExists db u = false) :
    serviceGrantAccess db u pid b t = (db, Except.error "User not found") := by
  unfold serviceGrantAccess
  rw [hu]
  rfl

lemma serviceGrantAccess_err_post (db : Db) (u pid b : String) (t : Nat)
    (hu : authUserExists db u = true)
    (hp : (postFindById db pid {}).isSome = false) :
    serviceGrantAccess db u pid b t = (db, Except.error "Post not found") := by
  unfold serviceGrantAccess
  rw [hu]
  cases hfind : postFindById db pid {} with
  | none => simp [hfind]
  | some x => rw [hfind] at hp; simp at hp

/-- Counterexample to C3 as stated: bulk-granting user `u3` to posts
`[p1, p2]` where `p2` does not exist fails with `Post not found`, yet the
grant for `p1` IS applied — the store does not stay unchanged, so references
are not all validated up front. -/
theorem c3_counterexample :
    (grantBulkAccessToUser exDb3 "u3" ["p1", "p2"] "adm" 5).2 =
      Except.error "Post not found" ∧
    (grantBulkAccessToUser exDb3 "u3" ["p1", "p2"] "adm" 5).1.grants =
      [{ auth_user_id := "u3", post_id := "p1", granted_at := 5, granted_by := "adm" }] ∧
    exDb3.grants = [] := by
  refine ⟨?_, ?_, rfl⟩ <;> rfl

/-- Claim C3 (amended): a bulk grant validates each referenced entity
immediately before granting that item, so a missing reference fails the whole
batch with the error naming the missing entity kind (`Post not found` /
`User not found`), but the grants of the items preceding the first invalid
reference remain applied and nothing from the failing item onward is
granted. -/
theorem c3_bulk_grant_partial_commit :
    (∀ (db : Db) (u : String) (pre : List String) (bad : String) (rest : List String)
        (b : String) (t : Nat),
      authUserExists db u = true →
      (∀ pid ∈ pre, (postFindById db pid {}).isSome = true) →
      (postFindById db bad {}).isSome = false →
      (grantBulkAccessToUser db u (pre ++ bad :: rest) b t).2 =
        Except.error "Post not found" ∧
      (grantBulkAccessToUser db u (pre ++ bad :: rest) b t).1 =
        applyUserGrants db u pre b t)
    ∧ (∀ (db : Db) (pre : List String) (bad : String) (rest : List String)
        (postId b : String) (t : Nat),
      (∀ uid ∈ pre, authUserExists db uid = true) →
      authUserExists db bad = false →
      (postFindById db postId {}).isSome = true →
      (grantBulkAccessToPost db (pre ++ bad :: rest) postId b t).2 =
        Except.error "User not found" ∧
      (grantBulkAccessToPost db (pre ++ bad :: rest) postId b t).1 =
        applyPostGrants db pre postId b t) := by
  constructor
  · intro db u pre bad rest b t hu hpre hbad
    induction pre generalizing db with
    | nil =>
      rw [List.nil_append, grantBulkAccessToUser,
        serviceGrantAccess_err_post db u bad b t hu hbad]
      exact ⟨rfl, rfl⟩
    | cons q pre' ih =>
      have ih' := ih (accessRepoGrantAccess db u q b t).1 hu
        (fun pid hpid => hpre pid (List.mem_cons_of_mem q hpid)) hbad
      have hpair : grantBulkAccessToUser (accessRepoGrantAccess db u q b t).1 u
          (pre' ++ bad :: rest) b t =
          (applyUserGrants (accessRepoGrantAccess db u q b t).1 u pre' b t,
           Except.error "Post not found") :=
        Prod.ext_iff.mpr ⟨ih'.2, ih'.1⟩
      simp only [List.cons_append, grantBulkAccessToUser,
        serviceGrantAccess_ok db u q b t hu (hpre q (by simp)), List.append_eq, hpair]
      exact ⟨trivial, rfl⟩
  · intro db pre bad rest postId b t hpre hbad hpost
    induction pre generalizing db with
    | nil =>
      rw [List.nil_append, grantBulkAccessToPost,
        serviceGrantAccess_err_user db bad postId b t hbad]
      exact ⟨rfl, rfl⟩
    | cons q pre' ih =>
      have ih' := ih (accessRepoGrantAccess db q postId b t).1
        (fun uid huid => hpre uid (List.mem_cons_of_mem q huid)) hbad hpost
      have hpair : grantBulkAccessToPost (accessRepoGrantAccess db q postId b t).1
          (pre' ++ bad :: rest) postId b t =
          (applyPostGrants (accessRepoGrantAccess db q postId b t).1 pre' postId b t,
           Except.error "User not found") :=
        Prod.ext_iff.mpr ⟨ih'.2, ih'.1⟩
      simp only [List.cons_append, grantBulkAccessToPost,
        serviceGrantAccess_ok db q postId b t (hpre q (by simp)) hpost, List.append_eq, hpair]
      exact ⟨trivial, rfl⟩

/-- Witness for the amended C3: the two-item batch `[p1, p2]` on the store
where only `p1` exists. -/
theorem c3_bulk_grant_partial_commit_witness :
    (grantBulkAccessToUser exDb3 "u3" (["p1"] ++ "p2" :: []) "adm" 5).2 =
      Except.error "Post not found" ∧
    (grantBulkAccessToUser exDb3 "u3" (["p1"] ++ "p2" :: []) "adm" 5).1 =
      applyUserGrants exDb3 "u3" ["p1"] "adm" 5 :=
  c3_bulk_grant_partial_commit.1 exDb3 "u3" ["p1"] "p2" [] "adm" 5
    (by decide) (by decide) (by decide)

/-! ## C6: ORDER BY resolution -/

lemma listStartsWith_nil (hay : List Char) : listStartsWith hay [] = true := by
  cases hay <;> rfl

lemma listStartsWith_append (v b : List Char) : listStartsWith (v ++ b) v = true := by
  induction v with
  | nil => exact listStartsWith_nil b
  | cons c t ih => simp [listStartsWith, ih]

lemma listContainsSub_mono (a : List Char) {rest pat : List Char}
    (h : listContainsSub rest pat = true) : listContainsSub (a ++ rest) pat = true := by
  induction a with
  | nil => exact h
  | cons c a' ih =>
    unfold listContainsSub
    rw [Bool.or_eq_true]
    exact Or.inr ih

lemma listContainsSub_append_self (a v b : List Char) :
    listContainsSub (a ++ (v ++ b)) v = true := by
  apply listContainsSub_mono
  unfold listContainsSub
  rw [Bool.or_eq_true]
  exact Or.inl (listStartsWith_append v b)

/-- Counterexample to C6 as stated: the Sentiment and Comment readers
interpolate an arbitrary `orderBy` value verbatim into the `ORDER BY` text —
it does not fall back to any default, and the supplied string appears
unchecked in the query text. -/
theorem c6_counterexample :
    sentimentOrderByFragment "evil_column" "DESC" = "ORDER BY s.evil_column DESC" ∧
    sentimentOrderByFragment "evil_column" "DESC" ≠
      sentimentOrderByFragment "inserted_at" "DESC" ∧
    listContainsSub (sentimentOrderByFragment "evil_column" "DESC").data
      "evil_column".data = true ∧
    commentOrderByFragment "evil_column" "DESC" = "ORDER BY c.evil_column DESC" :=
  ⟨rfl, by decide, by decide, rfl⟩

/-- Claim C6 (amended): only the Post reader resolves `orderBy` through an
allow-list — unlisted values fall back to `p.inserted_at`, the resolved
expression is always one of six fixed expressions, and the direction is
forced to ASC/DESC; the Comment and Sentiment readers instead interpolate the
supplied `orderBy` (and direction) verbatim into the `ORDER BY` text. -/
theorem c6_order_by_resolution (v d : String) :
    (v ∉ ["posted_at", "comment_count", "reaction_count", "engagement_score",
        "content", "inserted_at"] → postOrderExpression v = "p.inserted_at")
    ∧ postOrderExpression v ∈ ["p.posted_at", "comment_count", "reaction_count",
        "engagement_score", "p.content", "p.inserted_at"]
    ∧ (sanitizedDirection d = "ASC" ∨ sanitizedDirection d = "DESC")
    ∧ listContainsSub (commentOrderByFragment v d).data v.data = true
    ∧ listContainsSub (sentimentOrderByFragment v d).data v.data = true := by
  refine ⟨?_, ?_, ?_, ?_, ?_⟩
  · intro hv
    unfold postOrderExpression
    split <;> simp_all
  · unfold postOrderExpression
    split <;> simp
  · unfold sanitizedDirection
    split
    · exact Or.inl rfl
    · exact Or.inr rfl
  · have hdata : (commentOrderByFragment v d).data
        = "ORDER BY c.".data ++ (v.data ++ (" ".data ++ d.data)) := by
      have h0 : (commentOrderByFragment v d).data
          = (("ORDER BY c.".data ++ v.data) ++ " ".data) ++ d.data := rfl
      rw [h0, List.append_assoc, List.append_assoc]
    rw [hdata]
    exact listContainsSub_append_self _ _ _
  · have hdata : (sentimentOrderByFragment v d).data
        = "ORDER BY s.".data ++ (v.data ++ (" ".data ++ d.data)) := by
      have h0 : (sentimentOrderByFragment v d).data
          = (("ORDER BY s.".data ++ v.data) ++ " ".data) ++ d.data := rfl
      rw [h0, List.append_assoc, List.append_assoc]
    rw [hdata]
    exact listContainsSub_append_self _ _ _

/-- Witness for the amended C6 at an unlisted column name. -/
theorem c6_order_by_resolution_witness :
    postOrderExpression "evil_column" = "p.inserted_at" ∧
    postOrderExpression "evil_column" ∈ ["p.posted_at", "comment_count", "reaction_count",
      "engagement_score", "p.content", "p.inserted_at"] ∧
    (sanitizedDirection "up" = "ASC" ∨ sanitizedDirection "up" = "DESC") ∧
    listContainsSub (commentOrderByFragment "evil_column" "up").data
      "evil_column".data = true ∧
    listContainsSub (sentimentOrderByFragment "evil_column" "up").data
      "evil_column".data = true :=
  ⟨(c6_order_by_resolution "evil_column" "up").1 (by decide),
   (c6_order_by_resolution "evil_column" "up").2.1,
   (c6_order_by_resolution "evil_column" "up").2.2.1,
   (c6_order_by_resolution "evil_column" "up").2.2.2.1,
   (c6_order_by_resolution "evil_column" "up").2.2.2.2⟩

/-! ## C7: post sentiment summary -/

lemma sum_filter_lengths {α κ : Type} [BEq κ] [LawfulBEq κ] (key : α → κ) :
    ∀ (keys : List κ) (l : List α), keys.Nodup → (∀ a ∈ l, key a ∈ keys) →
      (keys.map (fun k => (l.filter (fun a => key a == k)).length)).sum = l.length := by
  intro keys
  induction keys with
  | nil =>
    intro l _ hall
    cases l with
    | nil => rfl
    | cons a t => exact absurd (hall a (by simp)) (List.not_mem_nil _)
  | cons k ks ih =>
    intro l hnd hall
    rw [List.map_cons, List.sum_cons]
    have hks : ∀ k' ∈ ks, l.filter (fun a => key a == k') =
        (l.filter (fun a => !(key a == k))).filter (fun a => key a == k') := by
      intro k' hk'
      rw [List.filter_filter]
      apply List.filter_congr
      intro x _
      by_cases hx : (key x == k') = true
      · have hkk : k' ≠ k := fun h => (List.nodup_cons.mp hnd).1 (h ▸ hk')
        have hxk : (key x == k) = false := by
          rw [beq_eq_false_iff_ne]
          intro h
          exact hkk (by rw [← beq_iff_eq.mp hx, h])
        rw [hx, hxk]
        rfl
      · have hx' : (key x == k') = false := Bool.eq_false_iff.mpr hx
        rw [hx']
        rfl
    have hmap : ks.map (fun k' => (l.filter (fun a => key a == k')).length) =
        ks.map (fun k' => ((l.filter (fun a => !(key a == k))).filter
          (fun a => key a == k')).length) := by
      apply List.map_congr_left
      intro k' hk'
      rw [hks k' hk']
    rw [hmap, ih (l.filter (fun a => !(key a == k))) (List.nodup_cons.mp hnd).2 ?side]
    · exact (List.length_eq_length_filter_add (fun a => key a == k)).symm
    case side =>
      intro a ha
      rcases List.mem_filter.mp ha with ⟨hal, hak⟩
      rcases List.mem_cons.mp (hall a hal) with h | h
      · rw [Bool.not_eq_eq_eq_not, Bool.not_true, beq_eq_false_iff_ne] at hak
        exact absurd h hak
      · exact h

/-- Sorting the by-category rows does not change the sum of their counts. -/
lemma sum_insertionSort_counts (cats : List CategorySummary) :
    ((List.insertionSort (fun a b : CategorySummary => b.count ≤ a.count) cats).map
      (fun c => c.count)).sum = (cats.map (fun c => c.count)).sum :=
  (List.Perm.map _ (List.perm_insertionSort _ _)).sum_eq

/-- The by-category counts of the summary's grouping partition the grouped
rows: summed over the distinct categories they give back the row count. -/
lemma sum_category_counts (rows : List Sentiment) :
    (((rows.map (fun s => s.sentiment_category)).dedup.map (fun k =>
        ({ sentiment_category := k
           count := (rows.filter (fun s => s.sentiment_category == k)).length
           avg_confidence := avgOpt ((rows.filter
             (fun s => s.sentiment_category == k)).map (fun s => s.confidence))
           avg_polarity := avgOpt ((rows.filter
             (fun s => s.sentiment_category == k)).map (fun s => s.polarity)) }
          : CategorySummary))).map
      (fun c => c.count)).sum = rows.length := by
  rw [List.map_map]
  exact sum_filter_lengths (fun s : Sentiment => s.sentiment_category) _ rows
    (List.nodup_dedup _)
    (fun a ha => List.mem_dedup.mpr (List.mem_map_of_mem _ ha))

/-- Counterexample to C7 as stated: a comment-level sentiment row on a comment
of `p1` is NOT included in `p1`'s sentiment summary — the summary query
matches only rows with `post_id = p1`, and comment-level rows carry a null
`post_id`, so the summary comes back all-zero. -/
theorem c7_counterexample :
    getPostSentimentSummary exDb7 "p1" "adm" "admin" =
      some { post_id := "p1",
             total := { total_sentiments := 0, overall_avg_confidence := none,
                        overall_avg_polarity := none },
             by_category := [] } ∧
    exDb7.sentiments.any (fun s =>
      match s.comment_id with
      | some cid => exDb7.comments.any (fun c => c.id == cid && c.post_id == some "p1")
      | none => false) = true :=
  ⟨by decide, by decide⟩

/-- Claim C7 (amended): for every accessible post P the summary aggregates
exactly the sentiment rows whose `post_id` equals P (under target exclusivity
these are the post-level rows; comment-level rows are not included), grouped
by category with a count per category whose by-category counts sum to the
overall `total_sentiments`; in particular a single post-level sentiment with
category `positive`, confidence 0.9 and polarity 0.8 yields the one-row
summary of end-to-end scenario 2. -/
theorem c7_post_sentiment_summary :
    (∀ (db : Db) (postId userId role : String),
      analyticsHasPostAccess db postId userId role = true →
      ∃ out, getPostSentimentSummary db postId userId role = some out ∧
        out.total.total_sentiments =
          (db.sentiments.filter (fun s => s.post_id == some postId)).length ∧
        (out.by_category.map (fun c => c.count)).sum = out.total.total_sentiments)
    ∧ getPostSentimentSummary exDb7b "p1" "adm" "admin" =
        some { post_id := "p1",
               total := { total_sentiments := 1,
                          overall_avg_confidence := some ((9 : Rat)/10),
                          overall_avg_polarity := some ((4 : Rat)/5) },
               by_category := [{ sentiment_category := some "positive", count := 1,
                                 avg_confidence := some ((9 : Rat)/10),
                                 avg_polarity := some ((4 : Rat)/5) }] } := by
  constructor
  · intro db postId userId role hacc
    simp only [getPostSentimentSummary, hacc, Bool.not_true, Bool.false_eq_true,
      if_false]
    refine ⟨_, rfl, rfl, ?_⟩
    exact (sum_insertionSort_counts _).trans
      (sum_category_counts (db.sentiments.filter (fun s => s.post_id == some postId)))
  · have havg : ∀ x : Rat, avgOpt [some x] = some x := by
      intro x
      simp [avgOpt]
    rw [show getPostSentimentSummary exDb7b "p1" "adm" "admin" =
      some { post_id := "p1",
             total := { total_sentiments := 1,
                        overall_avg_confidence := avgOpt [some ((9 : Rat)/10)],
                        overall_avg_polarity := avgOpt [some ((4 : Rat)/5)] },
             by_category := [{ sentiment_category := some "positive", count := 1,
                               avg_confidence := avgOpt [some ((9 : Rat)/10)],
                               avg_polarity := avgOpt [some ((4 : Rat)/5)] }] } from rfl]
    simp only [havg]

/-- Witness for the amended C7 on the scenario store. -/
theorem c7_post_sentiment_summary_witness :
    ∃ out, getPostSentimentSummary exDb7b "p1" "adm" "admin" = some out ∧
      out.total.total_sentiments =
        (exDb7b.sentiments.filter (fun s => s.post_id == some "p1")).length ∧
      (out.by_category.map (fun c => c.count)).sum = out.total.total_sentiments :=
  c7_post_sentiment_summary.1 exDb7b "p1" "adm" "admin" (by decide)

/-! ## C2 and C5: the two access/trend divergences -/

/-- Claim C2 is violated by the code: in `exDb2` the only grant on `p1`
belongs to `u2`, yet the post-level sentiment `s1` of `p1` appears in the
`findAllWithAccess` result of the ungranted non-admin user `u1` — the SQL
precedence slip in the access join drops the `auth_user_id` condition on the
post branch.  The repository's own by-id check `hasAccess` denies the very
same row to the very same caller, exhibiting the internal contradiction. -/
theorem c2_sentiment_list_leak :
    ((sentimentFindAllWithAccess exDb2 "u1" "user" {}).map (fun r => r.s.id) = ["s1"]) ∧
    (exDb2.grants.all (fun g => g.auth_user_id != "u1") = true) ∧
    (("user" : String) ≠ "admin") ∧
    (sentimentHasAccess exDb2 "s1" "u1" "user" = false) :=
  ⟨rfl, by decide, by decide, by decide⟩

/-- Claim C5 is violated by the code: at `now = 100000` (not on an hour
boundary) the trend buckets are keyed by `now - i·3600` at full precision
while the grouped rows are keyed by the truncated hour, so the single
in-window post-level `positive` sentiment row of `exDb5` updates no bucket and
the whole 24-entry trend stays zero; re-running at `now = 100800` (exactly on
the hour) the same row does land in its bucket, showing the merge machinery
fires only on exact hour boundaries. -/
theorem c5_trend_buckets_never_match :
    ((getDashboardStats exDb5 "adm" "admin" 100000).sentimentTrend.length = 24) ∧
    ((getDashboardStats exDb5 "adm" "admin" 100000).sentimentTrend.all
        (fun t => t.positive == 0 && t.negative == 0 && t.neutral == 0) = true) ∧
    ((exDb5.sentiments.filter (fun s =>
        100000 - 86400 ≤ s.inserted_at && s.post_id.isSome && s.comment_id == none
        && s.sentiment_category == some "positive")).length = 1) ∧
    ((getDashboardStats exDb5 "adm" "admin" 100800).sentimentTrend.any
        (fun t => t.positive == 1) = true) :=
  ⟨rfl, by decide, by decide, by decide⟩

end SentimentBackend
